import Mathlib

/-!
Shallow embedding of the browser client in static/js/main.js: the debug
utility (rolling log queue, byte formatter, status-poll panel), the upload
flow (file-type guard, loading spinner, chat-control enablement), and the
chat flow (trimmed-input guard, typing placeholder, message rendering).
DOM state is modelled as explicit records; each network interaction is
split into its synchronous start phase and a settle phase parameterised by
the outcome of the request.
-/

/-- Model of the JavaScript String.prototype.trim call used in sendQuery
(main.js line 400): strips leading and trailing whitespace characters. -/
def isWS (c : Char) : Bool :=
  (c == ' ') || (c == '\t') || (c == '\n') || (c == '\r')

/-- Whitespace trimming on the underlying character list. -/
def trimChars (l : List Char) : List Char :=
  ((l.dropWhile isWS).reverse.dropWhile isWS).reverse

/-- Model of the JavaScript trim() on strings. -/
def jsTrim (s : String) : String :=
  String.mk (trimChars s.data)

/-- Model of JavaScript String.prototype.endsWith, used by the file-type
guard in handleFile (main.js line 262). -/
def jsEndsWith (s suffixStr : String) : Bool :=
  List.isSuffixOf suffixStr.data s.data

namespace debug

/-- Value of debug.enabled (main.js line 10). -/
def enabled : Bool := true

/-- Value of debug.maxLogEntries (main.js line 12). -/
def maxLogEntries : Nat := 100

/-- Entry of the debug log queue (main.js lines 111, 125, 138). The source
stores a data field for log and warn entries and an error field for error
entries; both are modelled by the single payload field. -/
structure LogEntry where
  type : String
  timestamp : String
  message : String
  payload : Option String

/-- Model of debug.addLogEntry (main.js lines 149 to 153): unshift the new
entry onto the front of the queue, then pop the last (oldest) entry when
the queue exceeds maxLogEntries. Generic in the entry type since only the
queue discipline matters. -/
def addLogEntry {α : Type} (entry : α) (q : List α) : List α :=
  let q' := entry :: q
  if maxLogEntries < q'.length then q'.dropLast else q'

/-- Folding a sequence of insertions (in the order they happen) through
addLogEntry, starting from a given queue. -/
def insertAll {α : Type} (es : List α) (q : List α) : List α :=
  es.foldl (fun acc e => addLogEntry e acc) q

/-- Model of debug.log (main.js lines 108 to 121): guarded by enabled,
builds an info entry and inserts it. The timestamp is a parameter since
the source reads the clock. -/
def log (timestamp message : String) (payload : Option String)
    (q : List LogEntry) : List LogEntry :=
  if enabled then
    addLogEntry { type := "info", timestamp := timestamp, message := message,
                  payload := payload } q
  else q

/-- Model of debug.error (main.js lines 123 to 134): unconditionally
builds an error entry and inserts it. -/
def error (timestamp message : String) (payload : Option String)
    (q : List LogEntry) : List LogEntry :=
  addLogEntry { type := "error", timestamp := timestamp, message := message,
                payload := payload } q

/-- Model of debug.warn (main.js lines 136 to 147): unconditionally builds
a warn entry and inserts it. -/
def warn (timestamp message : String) (payload : Option String)
    (q : List LogEntry) : List LogEntry :=
  addLogEntry { type := "warn", timestamp := timestamp, message := message,
                payload := payload } q

/-- Unit table of debug.formatBytes (main.js line 175). -/
def sizes : List String := ["Bytes", "KB", "MB", "GB"]

/-- The quantity bytes divided by 1024 to the power i, scaled to
hundredths and rounded to the nearest (half away from zero), modelling
toFixed(2) in debug.formatBytes (main.js line 177) over exact arithmetic. -/
def roundedHundredths (bytes i : Nat) : Nat :=
  (200 * bytes + 1024 ^ i) / (2 * 1024 ^ i)

/-- Rendering of a number of hundredths the way parseFloat(x.toFixed(2))
prints in the source (main.js line 177): trailing zeros of the two-digit
fraction are dropped, and a fraction of zero prints as a bare integer. -/
def formatDecimal2 (h : Nat) : String :=
  let ip := h / 100
  let f := h % 100
  if f = 0 then Nat.repr ip
  else if f % 10 = 0 then Nat.repr ip ++ "." ++ Nat.repr (f / 10)
  else if f < 10 then Nat.repr ip ++ ".0" ++ Nat.repr f
  else Nat.repr ip ++ "." ++ Nat.repr f

/-- Model of debug.formatBytes (main.js lines 172 to 178). The floating
point expression Math.floor(Math.log(bytes) / Math.log(1024)) is modelled
by the exact integer logarithm Nat.log 1024. An index beyond the unit
table yields undefined in JavaScript, which string concatenation prints as
the word undefined; Option.getD models that. -/
def formatBytes (bytes : Nat) : String :=
  if bytes = 0 then "0 Bytes"
  else
    let i := Nat.log 1024 bytes
    formatDecimal2 (roundedHundredths bytes i) ++ " " ++
      ((sizes.get? i).getD "undefined")

/-- Events affecting the debug panel after setup (main.js lines 21 to 41):
a click on the toggle control, or a firing of the 5 second interval
timer. -/
inductive PanelEvent where
  | toggle
  | tick

/-- One step of the panel state machine (main.js lines 26 to 39). The
state is the visibility of the panel (the show class); the second
component records whether the step issues a status fetch. A toggle flips
visibility and fetches exactly when the panel has just become visible; a
tick fetches exactly when the panel is visible. -/
def stepPanel : Bool → PanelEvent → Bool × Bool
  | shown, PanelEvent.toggle => (!shown, !shown)
  | shown, PanelEvent.tick => (shown, shown)

/-- The visibility of the panel at the moment of each status fetch issued
while processing the given events from the given visibility. -/
def fetchVisAux : Bool → List PanelEvent → List Bool
  | _, [] => []
  | shown, e :: es =>
    let r := stepPanel shown e
    (if r.2 then [r.1] else []) ++ fetchVisAux r.1 es

/-- The visibility of the panel at each status fetch over a whole run of
setupDebugPanel: the unconditional updateSystemStatus() call at setup
(main.js line 34) fires while the panel is still hidden, contributing the
leading false; the panel then starts hidden and processes the events. -/
def fetchLog (evs : List PanelEvent) : List Bool :=
  false :: fetchVisAux false evs

end debug

/-- A file as seen by handleFile: only its name matters to the client. -/
structure FileRec where
  name : String

/-- DOM state touched by the upload flow: the loading spinner, the stats
section, the three chat controls, the file badge, the remembered current
file and the last notification shown. -/
structure UIState where
  spinner : Bool
  statsHidden : Bool
  statsRows : Nat
  statsCols : Nat
  previewHTML : String
  queryInputDisabled : Bool
  queryBtnDisabled : Bool
  clearChatDisabled : Bool
  fileInfoShown : Bool
  fileInfoName : String
  currentFile : Option FileRec
  notif : Option (String × String)

/-- Modelled from the spec: the initial page state (the markup file is not
part of the source tree). The chat controls start disabled and the stats
section hidden; no spinner, no file, no notification. -/
def initialUI : UIState :=
  { spinner := false, statsHidden := true, statsRows := 0, statsCols := 0,
    previewHTML := "", queryInputDisabled := true, queryBtnDisabled := true,
    clearChatDisabled := true, fileInfoShown := false, fileInfoName := "",
    currentFile := none, notif := none }

/-- Model of showNotification (main.js lines 373 to 389): records the last
notification message and its type. -/
def showNotification (message ntype : String) (s : UIState) : UIState :=
  { s with notif := some (message, ntype) }

/-- Model of showLoadingSpinner (main.js lines 359 to 364). -/
def showLoadingSpinner (s : UIState) : UIState :=
  { s with spinner := true }

/-- Model of hideLoadingSpinner (main.js lines 366 to 371): removes the
spinner if present. -/
def hideLoadingSpinner (s : UIState) : UIState :=
  { s with spinner := false }

/-- Synchronous phase of handleFile (main.js lines 261 to 275): reject a
missing file or a name not ending in .csv with an error notification and
no request; otherwise show the spinner, remember the file and send the
upload request. The boolean records whether a request was issued. -/
def handleFileStart (file : Option FileRec) (s : UIState) : UIState × Bool :=
  match file with
  | none => (showNotification "Please select a CSV file" "error" s, false)
  | some f =>
    if jsEndsWith f.name ".csv" then
      (showLoadingSpinner { s with currentFile := some f }, true)
    else
      (showNotification "Please select a CSV file" "error" s, false)

/-- Model of handleUploadSuccess (main.js lines 290 to 323): reveal the
stats section, fill the counters and preview, enable the three chat
controls, attach the file badge and show the success notification. -/
def handleUploadSuccess (rows cols : Nat) (preview fileName : String)
    (s : UIState) : UIState :=
  showNotification "File uploaded successfully!" "success"
    { s with
      statsHidden := false, statsRows := rows, statsCols := cols,
      previewHTML := preview, queryInputDisabled := false,
      queryBtnDisabled := false, clearChatDisabled := false,
      fileInfoShown := true, fileInfoName := fileName }

/-- Model of deleteFile (main.js lines 325 to 357): hide the stats
section, disable the three chat controls, forget the current file, remove
the badge and show the deletion notification. The chat transcript reset
lives in the chat state and is noted separately. -/
def deleteFile (s : UIState) : UIState :=
  showNotification "File deleted successfully" "success"
    { s with
      statsHidden := true, queryInputDisabled := true,
      queryBtnDisabled := true, clearChatDisabled := true,
      currentFile := none, fileInfoShown := false, fileInfoName := "" }

/-- Possible outcomes of the upload request as seen by the continuation
chain of handleFile (main.js lines 272 to 287): a well-formed success
body, a well-formed body carrying an error field, or a rejected fetch or
JSON parse. -/
inductive UploadOutcome where
  | success (rows cols : Nat) (preview : String)
  | serverError (msg : String)
  | networkFailure (msg : String)

/-- Settle phase of handleFile (main.js lines 276 to 287). On a success
body the spinner is hidden and handleUploadSuccess runs; on an error field
the spinner is hidden, the thrown error reaches the catch which hides the
spinner again and notifies; on a rejected fetch the catch hides the
spinner and notifies. -/
def uploadSettle (o : UploadOutcome) (fileName : String) (s : UIState) :
    UIState :=
  match o with
  | UploadOutcome.success rows cols preview =>
    handleUploadSuccess rows cols preview fileName (hideLoadingSpinner s)
  | UploadOutcome.serverError msg =>
    showNotification msg "error" (hideLoadingSpinner (hideLoadingSpinner s))
  | UploadOutcome.networkFailure msg =>
    showNotification msg "error" (hideLoadingSpinner s)

/-- DOM state touched by the chat flow: the transcript (content and role
of each message), the input field, the typing placeholder and the last
notification. -/
structure ChatState where
  transcript : List (String × String)
  inputValue : String
  typing : Bool
  notif : Option (String × String)

/-- Initial chat state: empty transcript and input, no typing placeholder,
no notification. -/
def initialChat : ChatState :=
  { transcript := [], inputValue := "", typing := false, notif := none }

/-- Synchronous phase of sendQuery (main.js lines 399 to 417): trim the
input; on an empty result return with nothing changed and no request;
otherwise append the user message, clear the input, show the typing
placeholder and send the query. The option records the request body. -/
def sendQueryStart (s : ChatState) : ChatState × Option String :=
  let query := jsTrim s.inputValue
  if query = "" then (s, none)
  else
    ({ s with
        transcript := s.transcript ++ [(query, "user")],
        inputValue := "", typing := true }, some query)

/-- A parsed JSON body of the query endpoint (main.js lines 418 to 425):
an optional error field and the response text. -/
structure QueryResp where
  error : Option String
  response : String

/-- Settle phase of sendQuery (main.js lines 418 to 429): the typing
placeholder is removed; the check on the error field is a JavaScript
truthiness test, so an absent or empty-string error field falls through
to the success branch, appending the response as an assistant message,
while a non-empty error field is thrown and caught, removing the
placeholder again and surfacing the message as a notification. -/
def querySettle (resp : QueryResp) (s : ChatState) : ChatState :=
  let s1 := { s with typing := false }
  match resp.error with
  | some msg =>
    if msg = "" then
      { s1 with transcript := s1.transcript ++ [(resp.response, "assistant")] }
    else
      { s1 with notif := some (msg, "error") }
  | none => { s1 with transcript := s1.transcript ++ [(resp.response, "assistant")] }

/-- How the content of a rendered message node was inserted into the DOM:
through innerHTML (parsed as markup) or through textContent (literal
text, never parsed). -/
inductive NodeContent where
  | htmlContent (s : String)
  | textContent (s : String)

/-- Whether the browser parses the node content as markup: true exactly
for innerHTML insertion. -/
def parsedAsMarkup : NodeContent → Bool
  | NodeContent.htmlContent _ => true
  | NodeContent.textContent _ => false

/-- The literal text a node displays when it was inserted through
textContent. -/
def literalText : NodeContent → Option String
  | NodeContent.htmlContent _ => none
  | NodeContent.textContent s => some s

/-- A message element built by addMessage. -/
structure MessageDiv where
  className : String
  content : NodeContent

/-- Model of addMessage (main.js lines 432 to 446): assistant content goes
through the markdown renderer into innerHTML; any other role goes through
textContent as literal text. The markdown renderer (the external
markdown-it library) is a parameter. -/
def addMessage (render : String → String) (content msgType : String) :
    MessageDiv :=
  { className := "message " ++ msgType ++ "-message",
    content :=
      if msgType = "assistant" then NodeContent.htmlContent (render content)
      else NodeContent.textContent content }

/-! Helper lemmas for the log queue. -/

/-- When the queue is within capacity, an insertion is a cons followed by
truncation to capacity. -/
theorem addLogEntry_of_le {α : Type} (e : α) (q : List α)
    (h : q.length ≤ 100) :
    debug.addLogEntry e q = (e :: q).take 100 := by
  simp only [debug.addLogEntry, debug.maxLogEntries]
  by_cases hq : q.length = 100
  · rw [if_pos (by simp [hq])]
    rw [List.dropLast_eq_take]
    simp [hq]
  · rw [if_neg (by simp; omega)]
    rw [List.take_of_length_le (by simp; omega)]

/-- Truncating the right summand before an append does not change the
truncation of the whole append. -/
theorem take_append_take {α : Type} (a b : List α) (n : Nat) :
    (a ++ b.take n).take n = (a ++ b).take n := by
  rw [List.take_append_eq_append_take, List.take_append_eq_append_take,
    List.take_take, Nat.min_eq_left (Nat.sub_le n a.length)]

/-- Folding insertions through a queue within capacity yields the newest
prefix of the reversed insertion order followed by the old queue,
truncated to capacity. -/
theorem insertAll_eq {α : Type} (es : List α) :
    ∀ q : List α, q.length ≤ 100 →
      debug.insertAll es q = (es.reverse ++ q).take 100 := by
  induction es with
  | nil =>
    intro q hq
    simp only [debug.insertAll, List.foldl_nil, List.reverse_nil,
      List.nil_append]
    rw [List.take_of_length_le hq]
  | cons e es ih =>
    intro q hq
    simp only [debug.insertAll, List.foldl_cons] at ih ⊢
    rw [addLogEntry_of_le e q hq]
    rw [ih ((e :: q).take 100) (by simp)]
    rw [take_append_take]
    simp [List.reverse_cons, List.append_assoc]

/-- Every insertion places the new entry at the front of the queue. -/
theorem addLogEntry_head {α : Type} (e : α) (q : List α) :
    (debug.addLogEntry e q).head? = some e := by
  simp only [debug.addLogEntry, debug.maxLogEntries]
  split
  · cases q with
    | nil => simp_all
    | cons b bs => rfl
  · rfl

/-! Helper lemmas for the debug panel fetch trace. -/

/-- Every status fetch issued while processing panel events happens while
the panel is visible. -/
theorem fetchVisAux_all (evs : List debug.PanelEvent) :
    ∀ s : Bool, (debug.fetchVisAux s evs).all (fun b => b) = true := by
  induction evs with
  | nil => intro s; rfl
  | cons e es ih =>
    intro s
    cases e <;> cases s <;>
      simp [debug.fetchVisAux, debug.stepPanel, ih]

/-! Helper lemma for the byte formatter. -/

/-- Shape of formatBytes on a nonzero input with a known logarithm. -/
theorem formatBytes_shape (b i : Nat) (hb : b ≠ 0)
    (hi : Nat.log 1024 b = i) :
    debug.formatBytes b =
      debug.formatDecimal2 (debug.roundedHundredths b i) ++ " " ++
        ((debug.sizes.get? i).getD "undefined") := by
  simp [debug.formatBytes, hb, hi]

/-! Claim theorems. -/

/-- C1: the debug log queue is a bounded buffer of at most 100 entries
kept newest-first: every insertion places the new entry at the front, and
after inserting N greater than 100 entries into the initially empty queue
exactly the 100 most recent remain, in newest-first order. -/
theorem C1_log_queue_bounded {α : Type} (es : List α)
    (h : 100 < es.length) :
    debug.insertAll es [] = es.reverse.take 100 ∧
    (debug.insertAll es []).length = 100 ∧
    (∀ (e : α) (q : List α), (debug.addLogEntry e q).head? = some e) := by
  have hmain : debug.insertAll es [] = es.reverse.take 100 := by
    rw [insertAll_eq es [] (by simp)]
    simp
  refine ⟨hmain, ?_, fun e q => addLogEntry_head e q⟩
  rw [hmain]
  simp [List.length_take]
  omega

/-- Witness for C1 at a concrete run of 101 insertions. -/
theorem C1_witness :
    100 < (List.range 101).length ∧
    debug.insertAll (List.range 101) [] = (List.range 101).reverse.take 100 :=
  ⟨by decide, (C1_log_queue_bounded (List.range 101) (by decide)).1⟩

/-- C2: the byte formatter special-cases zero and formats on a base-1024
scale with two decimal places and trailing zeros dropped: 0 gives 0
Bytes, 1024 gives 1 KB, 1536 gives 1.5 KB, 1048576 gives 1 MB, and 1234
gives 1.21 KB. -/
theorem C2_formatBytes_values :
    debug.formatBytes 0 = "0 Bytes" ∧
    debug.formatBytes 1024 = "1 KB" ∧
    debug.formatBytes 1536 = "1.5 KB" ∧
    debug.formatBytes 1048576 = "1 MB" ∧
    debug.formatBytes 1234 = "1.21 KB" := by
  refine ⟨by decide, ?_, ?_, ?_, ?_⟩
  · rw [formatBytes_shape 1024 1 (by decide)
      (Nat.log_eq_of_pow_le_of_lt_pow (by norm_num) (by norm_num))]
    decide
  · rw [formatBytes_shape 1536 1 (by decide)
      (Nat.log_eq_of_pow_le_of_lt_pow (by norm_num) (by norm_num))]
    decide
  · rw [formatBytes_shape 1048576 2 (by decide)
      (Nat.log_eq_of_pow_le_of_lt_pow (by norm_num) (by norm_num))]
    decide
  · rw [formatBytes_shape 1234 1 (by decide)
      (Nat.log_eq_of_pow_le_of_lt_pow (by norm_num) (by norm_num))]
    decide

/-- C3 counterexample: with no panel events at all (the panel is never
opened), the setup of the debug panel has already issued one status fetch,
and it happened while the panel was not visible — so a status fetch is not
issued only while the panel is visible. -/
theorem C3_counterexample :
    debug.fetchLog [] = [false] ∧
    (debug.fetchLog []).all (fun b => b) = false := by
  decide

/-- C3 amended: apart from the single fetch issued unconditionally when
the panel is set up (which happens while the panel is still hidden), every
status fetch is issued while the panel is visible: a toggle fetches
exactly when the panel has just become visible (one immediate fetch on
open, none on close), and an interval tick fetches exactly when the panel
is visible, so after a close no fetch occurs until a reopen. -/
theorem C3_panel_fetch_amended :
    debug.fetchLog [] = [false] ∧
    (∀ evs : List debug.PanelEvent,
      (debug.fetchVisAux false evs).all (fun b => b) = true) ∧
    (∀ s : Bool, debug.stepPanel s debug.PanelEvent.toggle = (!s, !s)) ∧
    (∀ s : Bool, debug.stepPanel s debug.PanelEvent.tick = (s, s)) :=
  ⟨rfl, fun evs => fetchVisAux_all evs false, fun _ => rfl, fun _ => rfl⟩

/-- C4: for every file whose name does not end in .csv, handleFile shows
the error notification Please select a CSV file and returns: no request is
issued and no state other than the notification changes. -/
theorem C4_reject_non_csv (f : FileRec) (s : UIState)
    (h : jsEndsWith f.name ".csv" = false) :
    handleFileStart (some f) s =
      ({ s with notif := some ("Please select a CSV file", "error") }, false) := by
  simp [handleFileStart, h, showNotification]

/-- Witness for C4 at the dropped file data.txt. -/
theorem C4_witness :
    jsEndsWith "data.txt" ".csv" = false ∧
    handleFileStart (some (FileRec.mk "data.txt")) initialUI =
      ({ initialUI with
          notif := some ("Please select a CSV file", "error") }, false) :=
  ⟨by decide, C4_reject_non_csv (FileRec.mk "data.txt") initialUI (by decide)⟩

/-- C5: for every chat state whose trimmed input is empty, sendQuery
returns immediately: the state is unchanged (no message appended, no
typing placeholder) and no request is issued. -/
theorem C5_empty_query_ignored (s : ChatState)
    (h : jsTrim s.inputValue = "") :
    sendQueryStart s = (s, none) := by
  simp [sendQueryStart, h]

/-- Witness for C5 with a whitespace-only input. -/
theorem C5_witness :
    jsTrim "   " = "" ∧
    sendQueryStart { initialChat with inputValue := "   " } =
      ({ initialChat with inputValue := "   " }, none) :=
  ⟨by decide,
    C5_empty_query_ignored { initialChat with inputValue := "   " } (by decide)⟩

/-- C6: every successful upload enables the three chat controls, which
start disabled, and deleting the current file returns all three to
disabled. -/
theorem C6_chat_controls (rows cols : Nat) (preview fileName : String)
    (s : UIState) :
    ((handleUploadSuccess rows cols preview fileName s).queryInputDisabled = false ∧
     (handleUploadSuccess rows cols preview fileName s).queryBtnDisabled = false ∧
     (handleUploadSuccess rows cols preview fileName s).clearChatDisabled = false) ∧
    (∀ t : UIState,
      (deleteFile t).queryInputDisabled = true ∧
      (deleteFile t).queryBtnDisabled = true ∧
      (deleteFile t).clearChatDisabled = true) ∧
    (initialUI.queryInputDisabled = true ∧
     initialUI.queryBtnDisabled = true ∧
     initialUI.clearChatDisabled = true) :=
  ⟨⟨rfl, rfl, rfl⟩, fun _ => ⟨rfl, rfl, rfl⟩, ⟨rfl, rfl, rfl⟩⟩

/-- C7: addMessage renders assistant content through the markdown renderer
into markup, and inserts user content as literal text that the browser
never parses as markup, for every content string and every renderer. -/
theorem C7_addMessage_roles (render : String → String) (content : String) :
    (addMessage render content "assistant").content =
      NodeContent.htmlContent (render content) ∧
    (addMessage render content "user").content =
      NodeContent.textContent content ∧
    parsedAsMarkup (addMessage render content "user").content = false ∧
    literalText (addMessage render content "user").content = some content := by
  refine ⟨rfl, ?_, ?_, ?_⟩ <;>
    simp [addMessage, parsedAsMarkup, literalText]

/-- C8: for every upload attempt that sends a request, the spinner shown
before the request is removed whenever the request settles, on a success
body, on a body with an error field, and on a rejected fetch alike. -/
theorem C8_spinner_cleanup (f : FileRec) (s : UIState)
    (h : jsEndsWith f.name ".csv" = true) :
    (handleFileStart (some f) s).1.spinner = true ∧
    (handleFileStart (some f) s).2 = true ∧
    (∀ (o : UploadOutcome) (fileName : String),
      (uploadSettle o fileName (handleFileStart (some f) s).1).spinner = false) := by
  refine ⟨?_, ?_, ?_⟩
  · simp [handleFileStart, h, showLoadingSpinner]
  · simp [handleFileStart, h]
  · intro o fileName
    cases o <;>
      simp [uploadSettle, handleUploadSuccess, hideLoadingSpinner,
        showNotification]

/-- Witness for C8 at the file data.csv and a server-reported error. -/
theorem C8_witness :
    jsEndsWith "data.csv" ".csv" = true ∧
    (uploadSettle (UploadOutcome.serverError "upload failed") "data.csv"
      (handleFileStart (some (FileRec.mk "data.csv")) initialUI).1).spinner = false :=
  ⟨by decide,
    (C8_spinner_cleanup (FileRec.mk "data.csv") initialUI (by decide)).2.2
      (UploadOutcome.serverError "upload failed") "data.csv"⟩

/-- C9 counterexample: a response whose body contains an error field that
is the empty string is falsy under the source check, so it takes the
success branch: an assistant message is appended and no notification is
shown, refuting the claim as stated for that body. -/
theorem C9_counterexample :
    (querySettle (QueryResp.mk (some "") "ok") initialChat).transcript =
      [("ok", "assistant")] ∧
    (querySettle (QueryResp.mk (some "") "ok") initialChat).notif = none ∧
    (querySettle (QueryResp.mk (some "") "ok") initialChat).typing = false := by
  exact ⟨rfl, rfl, rfl⟩

/-- C9 amended: for every query response whose body carries a non-empty
error field (the truthy case of the source check), the typing placeholder
is removed, the error message is surfaced as a notification, and no
assistant message is appended to the transcript. -/
theorem C9_query_error_path (resp : QueryResp) (s : ChatState)
    (msg : String) (h : resp.error = some msg) (hm : msg ≠ "") :
    (querySettle resp s).typing = false ∧
    (querySettle resp s).notif = some (msg, "error") ∧
    (querySettle resp s).transcript = s.transcript := by
  rcases resp with ⟨e, r⟩
  cases h
  simp [querySettle, hm]

/-- Witness for C9 at a concrete non-empty error response. -/
theorem C9_witness :
    (QueryResp.mk (some "query failed") "").error = some "query failed" ∧
    "query failed" ≠ "" ∧
    (querySettle (QueryResp.mk (some "query failed") "") initialChat).transcript =
      initialChat.transcript :=
  ⟨rfl, by decide,
    (C9_query_error_path (QueryResp.mk (some "query failed") "") initialChat
      "query failed" rfl (by decide)).2.2⟩

/-- C10: formatBytes yields a unit from the table only for inputs below
1024 to the fourth power: at or above that bound the computed index is at
least 4, the table lookup misses, and the formatted string carries the
word undefined in place of a unit; every nonzero input takes the
logarithm path and only the zero guard avoids it. -/
theorem C10_formatBytes_unit_range :
    (∀ b : Nat, 1024 ^ 4 ≤ b →
      4 ≤ Nat.log 1024 b ∧
      debug.sizes.get? (Nat.log 1024 b) = none ∧
      debug.formatBytes b =
        debug.formatDecimal2 (debug.roundedHundredths b (Nat.log 1024 b)) ++
          " " ++ "undefined") ∧
    (∀ b : Nat, 0 < b → b < 1024 ^ 4 →
      Nat.log 1024 b ≤ 3 ∧
      ∃ u, debug.sizes.get? (Nat.log 1024 b) = some u ∧ u ∈ debug.sizes) ∧
    debug.formatBytes 0 = "0 Bytes" ∧
    (∀ b : Nat, b ≠ 0 →
      debug.formatBytes b =
        debug.formatDecimal2 (debug.roundedHundredths b (Nat.log 1024 b)) ++
          " " ++ ((debug.sizes.get? (Nat.log 1024 b)).getD "undefined")) := by
  have hform : ∀ b : Nat, b ≠ 0 →
      debug.formatBytes b =
        debug.formatDecimal2 (debug.roundedHundredths b (Nat.log 1024 b)) ++
          " " ++ ((debug.sizes.get? (Nat.log 1024 b)).getD "undefined") := by
    intro b hb
    exact formatBytes_shape b (Nat.log 1024 b) hb rfl
  refine ⟨?_, ?_, by decide, hform⟩
  · intro b hb
    have hpos : 0 < 1024 ^ 4 := by norm_num
    have hb0 : b ≠ 0 := by omega
    have h4 : 4 ≤ Nat.log 1024 b :=
      (Nat.pow_le_iff_le_log (by norm_num) hb0).mp hb
    have hlen : debug.sizes.length = 4 := rfl
    have hnone : debug.sizes.get? (Nat.log 1024 b) = none :=
      List.get?_eq_none.mpr (hlen ▸ h4)
    refine ⟨h4, hnone, ?_⟩
    rw [hform b hb0, hnone]
    rfl
  · intro b hb0 hlt
    have hne : b ≠ 0 := by omega
    have hlog : Nat.log 1024 b < 4 := Nat.log_lt_of_lt_pow hne hlt
    refine ⟨by omega, ?_⟩
    have hlen : ¬ (debug.sizes.length ≤ Nat.log 1024 b) := by
      simp only [debug.sizes, List.length_cons, List.length_nil]
      omega
    cases hu : debug.sizes.get? (Nat.log 1024 b) with
    | none => exact absurd (List.get?_eq_none.mp hu) hlen
    | some u => exact ⟨u, rfl, List.get?_mem hu⟩

/-- Witness for C10 at the boundary input and at one byte. -/
theorem C10_witness :
    1024 ^ 4 ≤ 1024 ^ 4 ∧
    debug.sizes.get? (Nat.log 1024 (1024 ^ 4)) = none ∧
    0 < 1 ∧ (1 : Nat) < 1024 ^ 4 ∧ Nat.log 1024 1 ≤ 3 :=
  ⟨le_rfl,
    ((C10_formatBytes_unit_range.1 (1024 ^ 4)) le_rfl).2.1,
    by decide, by norm_num,
    ((C10_formatBytes_unit_range.2.1 1) (by decide) (by norm_num)).1⟩
